import Mathlib

/-!
Shallow embedding of src/05-objects-tasks.js.

The JavaScript module exports a Rectangle factory, two JSON helpers
(getJSON / fromJSON) and a fluent CSS selector builder (class Builder
behind the cssSelectorBuilder facade).  JavaScript methods mutate the
receiver and may throw; a method call is embedded as a function from the
receiver state to a CallResult, which either returns the updated state
(ok) or records a thrown error message together with the state the
receiver had at the throw statement (thrown).  In the source every throw
is the first statement of its guard branch, so the state carried by a
thrown result is the receiver state unchanged.
-/

set_option autoImplicit false

/-- Message bound to the constant OneTimeInsideError in the source. -/
def OneTimeInsideError : String :=
  "Element, id and pseudo-element should not occur more then one time inside the selector"

/-- Message bound to the constant FollowingOrderError in the source. -/
def FollowingOrderError : String :=
  "Selector parts should be arranged in the following order: element, id, class, attribute, pseudo-class, pseudo-element"

/-- The mutable state of a Builder instance: the accumulated string
value1 and the six existence flags the methods set.  In JavaScript the
flags are absent until first assignment; an absent property reads as
falsy, embedded here as the flag being false. -/
structure Builder where
  value1 : String
  elementExist : Bool
  idExist : Bool
  classExist : Bool
  attrExist : Bool
  pseudoClassExist : Bool
  pseudoElementExist : Bool
  deriving DecidableEq, Repr

/-- Outcome of a JavaScript method call on a Builder: either the updated
receiver (ok) or an exception message together with the receiver state at
the throw site (thrown). -/
inductive CallResult where
  | ok (b : Builder)
  | thrown (msg : String) (b : Builder)
  deriving DecidableEq, Repr

/-- The receiver state after the call, whether it returned or threw. -/
def CallResult.post : CallResult → Builder
  | .ok b => b
  | .thrown _ b => b

/-- The Builder constructor: value1 is set to the empty string and then,
when an argument was supplied, to that argument; no flag is set. -/
def Builder.init (arg : Option String) : Builder :=
  { value1 := match arg with
      | some v => v
      | none => ""
    elementExist := false
    idExist := false
    classExist := false
    attrExist := false
    pseudoClassExist := false
    pseudoElementExist := false }

/-- new Builder() with no argument, as every facade entry point calls it. -/
def Builder.new : Builder := Builder.init none

/-- stringify() returns this.value1. -/
def Builder.stringify (b : Builder) : String := b.value1

/-- stringify() with the receiver threaded explicitly: the method body is
a single return statement, so it yields this.value1 and leaves the
receiver exactly as it was. -/
def Builder.stringifyRun (b : Builder) : String × Builder := (b.value1, b)

/-- Duck typing of combine: any object exposing stringify(). -/
class HasStringify (α : Type) where
  stringify : α → String

instance instHasStringifyBuilder : HasStringify Builder := ⟨Builder.stringify⟩

/-- element(value): duplicate check on elementExist first, then order
check against the five later flags, then set elementExist and append
value verbatim. -/
def Builder.element (b : Builder) (value : String) : CallResult :=
  if b.elementExist then
    CallResult.thrown OneTimeInsideError b
  else if b.idExist || b.classExist || b.attrExist || b.pseudoClassExist
      || b.pseudoElementExist then
    CallResult.thrown FollowingOrderError b
  else
    CallResult.ok { b with elementExist := true, value1 := b.value1 ++ value }

/-- id(value): duplicate check on idExist first, then order check against
the four later flags, then set idExist and append the hash sign and value. -/
def Builder.id (b : Builder) (value : String) : CallResult :=
  if b.idExist then
    CallResult.thrown OneTimeInsideError b
  else if b.classExist || b.attrExist || b.pseudoClassExist || b.pseudoElementExist then
    CallResult.thrown FollowingOrderError b
  else
    CallResult.ok { b with idExist := true, value1 := b.value1 ++ "#" ++ value }

/-- class(value): order check against the three later flags, then set
classExist and append a dot and value.  No duplicate check. -/
def Builder.«class» (b : Builder) (value : String) : CallResult :=
  if b.attrExist || b.pseudoClassExist || b.pseudoElementExist then
    CallResult.thrown FollowingOrderError b
  else
    CallResult.ok { b with classExist := true, value1 := b.value1 ++ "." ++ value }

/-- attr(value): order check against the two later flags, then set
attrExist and append value in square brackets.  No duplicate check. -/
def Builder.attr (b : Builder) (value : String) : CallResult :=
  if b.pseudoClassExist || b.pseudoElementExist then
    CallResult.thrown FollowingOrderError b
  else
    CallResult.ok { b with attrExist := true, value1 := b.value1 ++ "[" ++ value ++ "]" }

/-- pseudoClass(value): order check against pseudoElementExist, then set
pseudoClassExist and append a colon and value.  No duplicate check. -/
def Builder.pseudoClass (b : Builder) (value : String) : CallResult :=
  if b.pseudoElementExist then
    CallResult.thrown FollowingOrderError b
  else
    CallResult.ok { b with pseudoClassExist := true, value1 := b.value1 ++ ":" ++ value }

/-- pseudoElement(value): duplicate check on pseudoElementExist, then set
it and append a double colon and value.  It is the last category, so the
method has no order check. -/
def Builder.pseudoElement (b : Builder) (value : String) : CallResult :=
  if b.pseudoElementExist then
    CallResult.thrown OneTimeInsideError b
  else
    CallResult.ok { b with pseudoElementExist := true, value1 := b.value1 ++ "::" ++ value }

/-- combine(selector1, combinator, selector2): appends
selector1.stringify(), a space, the combinator, a space and
selector2.stringify() to value1.  It never throws and touches no flag. -/
def Builder.combine {α β : Type} [HasStringify α] [HasStringify β]
    (b : Builder) (selector1 : α) (combinator : String) (selector2 : β) : Builder :=
  { b with value1 := b.value1 ++ HasStringify.stringify selector1 ++ " "
      ++ combinator ++ " " ++ HasStringify.stringify selector2 }

/-- Facade entry cssSelectorBuilder.element: new Builder().element(value). -/
def cssSelectorBuilder.element (value : String) : CallResult :=
  Builder.new.element value

/-- Facade entry cssSelectorBuilder.id: new Builder().id(value). -/
def cssSelectorBuilder.id (value : String) : CallResult :=
  Builder.id Builder.new value

/-- Facade entry cssSelectorBuilder.class: new Builder().class(value). -/
def cssSelectorBuilder.«class» (value : String) : CallResult :=
  Builder.«class» Builder.new value

/-- Facade entry cssSelectorBuilder.attr: new Builder().attr(value). -/
def cssSelectorBuilder.attr (value : String) : CallResult :=
  Builder.new.attr value

/-- Facade entry cssSelectorBuilder.pseudoClass: new Builder().pseudoClass(value). -/
def cssSelectorBuilder.pseudoClass (value : String) : CallResult :=
  Builder.new.pseudoClass value

/-- Facade entry cssSelectorBuilder.pseudoElement: new Builder().pseudoElement(value). -/
def cssSelectorBuilder.pseudoElement (value : String) : CallResult :=
  Builder.new.pseudoElement value

/-- Facade entry cssSelectorBuilder.combine:
new Builder().combine(selector1, combinator, selector2). -/
def cssSelectorBuilder.combine {α β : Type} [HasStringify α] [HasStringify β]
    (selector1 : α) (combinator : String) (selector2 : β) : Builder :=
  Builder.new.combine selector1 combinator selector2

/-- One fragment method call together with its string argument. -/
inductive Frag where
  | element (v : String)
  | id (v : String)
  | «class» (v : String)
  | attr (v : String)
  | pseudoClass (v : String)
  | pseudoElement (v : String)
  deriving DecidableEq, Repr

/-- Category rank of a fragment: element 0, id 1, class 2, attr 3,
pseudoClass 4, pseudoElement 5. -/
def Frag.cat : Frag → Nat
  | .element _ => 0
  | .id _ => 1
  | .«class» _ => 2
  | .attr _ => 3
  | .pseudoClass _ => 4
  | .pseudoElement _ => 5

/-- Formatted text a fragment contributes to the selector string. -/
def Frag.fmt : Frag → String
  | .element v => v
  | .id v => "#" ++ v
  | .«class» v => "." ++ v
  | .attr v => "[" ++ v ++ "]"
  | .pseudoClass v => ":" ++ v
  | .pseudoElement v => "::" ++ v

/-- Dispatch a fragment call to the corresponding Builder method. -/
def Frag.apply (b : Builder) : Frag → CallResult
  | .element v => b.element v
  | .id v => Builder.id b v
  | .«class» v => Builder.«class» b v
  | .attr v => b.attr v
  | .pseudoClass v => b.pseudoClass v
  | .pseudoElement v => b.pseudoElement v

/-- The facade entry point corresponding to a fragment. -/
def Frag.facade : Frag → CallResult
  | .element v => cssSelectorBuilder.element v
  | .id v => cssSelectorBuilder.id v
  | .«class» v => cssSelectorBuilder.«class» v
  | .attr v => cssSelectorBuilder.attr v
  | .pseudoClass v => cssSelectorBuilder.pseudoClass v
  | .pseudoElement v => cssSelectorBuilder.pseudoElement v

/-- Run a chain of fragment method calls on a builder; a thrown error
aborts the chain, as a JavaScript exception would. -/
def applyAll (b : Builder) : List Frag → CallResult
  | [] => CallResult.ok b
  | f :: fs =>
    match Frag.apply b f with
    | CallResult.ok b2 => applyAll b2 fs
    | CallResult.thrown m b2 => CallResult.thrown m b2

/-- A chain started by a facade entry call and continued with fragment
method calls on the returned builder. -/
def runFromFacade (f : Frag) (rest : List Frag) : CallResult :=
  match Frag.facade f with
  | CallResult.ok b => applyAll b rest
  | CallResult.thrown m b => CallResult.thrown m b

/-- Concatenation of a list of strings, in order, with no separator. -/
def joinAll : List String → String
  | [] => ""
  | s :: ss => s ++ joinAll ss

/-- The guard under which a fragment method takes its success branch:
exactly the negation of the conditions the source method tests. -/
def Builder.accepts (b : Builder) : Frag → Bool
  | .element _ => !b.elementExist && !(b.idExist || b.classExist || b.attrExist
      || b.pseudoClassExist || b.pseudoElementExist)
  | .id _ => !b.idExist && !(b.classExist || b.attrExist || b.pseudoClassExist
      || b.pseudoElementExist)
  | .«class» _ => !(b.attrExist || b.pseudoClassExist || b.pseudoElementExist)
  | .attr _ => !(b.pseudoClassExist || b.pseudoElementExist)
  | .pseudoClass _ => !b.pseudoElementExist
  | .pseudoElement _ => !b.pseudoElementExist

/-- The state a fragment method produces on its success branch. -/
def Frag.update (b : Builder) : Frag → Builder
  | .element v => { b with elementExist := true, value1 := b.value1 ++ v }
  | .id v => { b with idExist := true, value1 := b.value1 ++ "#" ++ v }
  | .«class» v => { b with classExist := true, value1 := b.value1 ++ "." ++ v }
  | .attr v => { b with attrExist := true, value1 := b.value1 ++ "[" ++ v ++ "]" }
  | .pseudoClass v => { b with pseudoClassExist := true, value1 := b.value1 ++ ":" ++ v }
  | .pseudoElement v => { b with pseudoElementExist := true, value1 := b.value1 ++ "::" ++ v }

/-- The six existence flags viewed as a function of the category rank. -/
def Builder.flag (b : Builder) : Nat → Bool
  | 0 => b.elementExist
  | 1 => b.idExist
  | 2 => b.classExist
  | 3 => b.attrExist
  | 4 => b.pseudoClassExist
  | 5 => b.pseudoElementExist
  | _ => false

/-- A heap of Builder objects; an address is an index into the list.
JavaScript builders are heap objects: new Builder() allocates a fresh
object and method calls mutate the object in place at its address. -/
abbrev BHeap := List Builder

/-- Allocation: the fresh object goes to the next unused address. -/
def allocB (h : BHeap) (b : Builder) : Nat × BHeap := (h.length, h ++ [b])

/-- One of the seven cssSelectorBuilder facade entry points with its
arguments: the six fragment entries take the fragment text, and combine
takes the heap addresses of its two selector arguments together with the
combinator string. -/
inductive FacadeCall where
  | frag (f : Frag)
  | combine (a1 : Nat) (combinator : String) (a2 : Nat)

/-- A facade entry call against the heap: new Builder() allocates a
fresh object and the named method runs on it.  For a fragment entry the
caller gets the address of the fresh object on success; when the method
throws, the exception propagates, no address reaches the caller and the
fresh object is unreachable garbage, so it is dropped from the model
heap.  For combine the two selector objects are read (combine only calls
their stringify), the fresh builder absorbs their texts and its address
is returned; addresses outside the heap have no object to read. -/
def facadeCallAlloc (h : BHeap) : FacadeCall → Option (Nat × BHeap)
  | .frag f =>
    match Frag.apply Builder.new f with
    | CallResult.ok b => some (allocB h b)
    | CallResult.thrown _ _ => none
  | .combine a1 combinator a2 =>
    match h[a1]?, h[a2]? with
    | some s1, some s2 => some (allocB h (Builder.new.combine s1 combinator s2))
    | _, _ => none

/-- A fragment method call on the object at address i: the object is
read, the method runs, and the receiver state it leaves (after mutation,
or as it stood at a throw site) is stored back at the same address.  The
method returns this, so chains keep operating on the same address. -/
def callAt (h : BHeap) (i : Nat) (f : Frag) : BHeap :=
  match h[i]? with
  | some b => h.set i (Frag.apply b f).post
  | none => h

/-- A chain of fragment method calls on the object at address i. -/
def callChainAt (h : BHeap) (i : Nat) (gs : List Frag) : BHeap :=
  gs.foldl (fun h2 g => callAt h2 i g) h

/-- The object returned by the Rectangle factory: two data properties
and the getArea method, embedded as a function value (a closure). -/
structure RectObj (α : Type) where
  width : α
  height : α
  getArea : Unit → α

/-- Rectangle(width, height): the returned object carries width and
height, and getArea is a closure over the constructor arguments, not a
reader of the object properties.  The numeric type and its
multiplication are abstracted by α. -/
def Rectangle {α : Type} [Mul α] (width height : α) : RectObj α :=
  { width := width
    height := height
    getArea := fun _ => width * height }

/-- Property reassignment rec.width = w on the returned object. -/
def RectObj.setWidth {α : Type} (r : RectObj α) (w : α) : RectObj α :=
  { r with width := w }

/-- Property reassignment rec.height = h on the returned object. -/
def RectObj.setHeight {α : Type} (r : RectObj α) (h : α) : RectObj α :=
  { r with height := h }

/-- A JavaScript object as the JSON helpers see it: its own enumerable
properties and its prototype reference.  Property values have the
abstract type V and prototype references the abstract type P. -/
structure JSObject (V P : Type) where
  props : List (String × V)
  proto : P
  deriving DecidableEq, Repr

/-- getJSON(obj) returns JSON.stringify(obj).  JSON.stringify is a
platform primitive, abstracted as a serializer parameter applied to the
own enumerable properties of the object; the prototype is never
serialized. -/
def getJSON {V P : Type} (stringifyJSON : List (String × V) → String)
    (obj : JSObject V P) : String :=
  stringifyJSON obj.props

/-- A heap of JavaScript objects for the JSON helpers. -/
abbrev JHeap (V P : Type) := List (JSObject V P)

/-- Allocation of a fresh object at the next unused address. -/
def allocJS {V P : Type} (h : JHeap V P) (o : JSObject V P) : Nat × JHeap V P :=
  (h.length, h ++ [o])

/-- JSON.parse as a platform primitive: it decodes the text with the
abstract decoder and allocates a fresh object holding the decoded
properties, carrying the default object prototype. -/
def parseJSON {V P : Type} (parseProps : String → List (String × V)) (objectProto : P)
    (h : JHeap V P) (json : String) : Nat × JHeap V P :=
  allocJS h { props := parseProps json, proto := objectProto }

/-- Object.setPrototypeOf(o, proto): replaces the prototype of the
object at the given address, in place. -/
def Object.setPrototypeOf {V P : Type} (h : JHeap V P) (a : Nat) (proto : P) :
    JHeap V P :=
  match h[a]? with
  | some o => h.set a { o with proto := proto }
  | none => h

/-- fromJSON(proto, json): JSON.parse the text into objJSON, set the
prototype of objJSON in place, and return objJSON itself (its address). -/
def fromJSON {V P : Type} (parseProps : String → List (String × V)) (objectProto : P)
    (h : JHeap V P) (proto : P) (json : String) : Nat × JHeap V P :=
  let r := parseJSON parseProps objectProto h json
  (r.1, Object.setPrototypeOf r.2 r.1 proto)

/-- Concrete builder state with every flag set, used in concrete checks. -/
def bAllFlags : Builder :=
  { value1 := "x", elementExist := true, idExist := true, classExist := true,
    attrExist := true, pseudoClassExist := true, pseudoElementExist := true }

/-- Concrete builder state as produced by cssSelectorBuilder.element(div). -/
def bDiv : Builder :=
  { value1 := "div", elementExist := true, idExist := false, classExist := false,
    attrExist := false, pseudoClassExist := false, pseudoElementExist := false }

/-- Concrete builder state as produced by cssSelectorBuilder.id(main). -/
def bMain : Builder :=
  { value1 := "#main", elementExist := false, idExist := true, classExist := false,
    attrExist := false, pseudoClassExist := false, pseudoElementExist := false }

/-- Concrete builder state as produced by the facade combine of the div
and id(main) builders with the plus combinator. -/
def bPlus : Builder :=
  { value1 := "div + #main", elementExist := false, idExist := false, classExist := false,
    attrExist := false, pseudoClassExist := false, pseudoElementExist := false }

/-- Concrete builder state as produced by cssSelectorBuilder.class(c). -/
def bCls : Builder :=
  { value1 := ".c", elementExist := false, idExist := false, classExist := true,
    attrExist := false, pseudoClassExist := false, pseudoElementExist := false }

/-- When the guard accepts, a fragment method returns ok with the updated state. -/
theorem apply_ok {b : Builder} {f : Frag} (h : b.accepts f = true) :
    Frag.apply b f = CallResult.ok (Frag.update b f) := by
  cases f <;>
    simp_all [Builder.accepts, Frag.apply, Frag.update, Builder.element, Builder.id,
      Builder.«class», Builder.attr, Builder.pseudoClass, Builder.pseudoElement]

/-- The updated state still accepts any fragment of a later category, and
also one of the same category when that category has no duplicate check. -/
theorem step_accepts {b : Builder} {f g : Frag}
    (hacc : b.accepts g = true) (hle : f.cat ≤ g.cat)
    (hdup : (g.cat = 0 ∨ g.cat = 1 ∨ g.cat = 5) → f.cat ≠ g.cat) :
    (Frag.update b f).accepts g = true := by
  cases f <;> cases g <;>
    simp_all [Builder.accepts, Frag.update, Frag.cat]

/-- The success branch appends exactly the formatted fragment text. -/
theorem update_value1 (b : Builder) (f : Frag) :
    (Frag.update b f).value1 = b.value1 ++ f.fmt := by
  cases f <;> simp [Frag.update, Frag.fmt, String.append_assoc]

/-- Running a category-sorted chain with at most one element, id and
pseudo-element fragment succeeds on any builder that accepts every
fragment of the chain, and appends the formatted fragments in order. -/
theorem applyAll_ok (fs : List Frag) : ∀ (b : Builder),
    (∀ f, f ∈ fs → b.accepts f = true) →
    ((fs.map Frag.cat).Pairwise (· ≤ ·)) →
    ((fs.map Frag.cat).count 0 ≤ 1) →
    ((fs.map Frag.cat).count 1 ≤ 1) →
    ((fs.map Frag.cat).count 5 ≤ 1) →
    ∃ b2, applyAll b fs = CallResult.ok b2 ∧
      b2.value1 = b.value1 ++ joinAll (fs.map Frag.fmt) := by
  induction fs with
  | nil =>
    intro b _ _ _ _ _
    exact ⟨b, rfl, (String.append_empty b.value1).symm⟩
  | cons f fs ih =>
    intro b hacc hsorted h0 h1 h5
    have hfacc : b.accepts f = true := hacc f (List.mem_cons_self f fs)
    have happly : Frag.apply b f = CallResult.ok (Frag.update b f) := apply_ok hfacc
    have hsorted2 : (f.cat :: fs.map Frag.cat).Pairwise (· ≤ ·) := by
      rw [List.map_cons] at hsorted; exact hsorted
    have hhead : ∀ g ∈ fs, f.cat ≤ g.cat := by
      intro g hg
      exact (List.pairwise_cons.mp hsorted2).1 g.cat (List.mem_map_of_mem Frag.cat hg)
    have htail : (fs.map Frag.cat).Pairwise (· ≤ ·) := (List.pairwise_cons.mp hsorted2).2
    have hcount_tail : ∀ c : Nat,
        (fs.map Frag.cat).count c ≤ ((f :: fs).map Frag.cat).count c := by
      intro c
      rw [List.map_cons, List.count_cons]
      split <;> omega
    have hnodup : ∀ g ∈ fs, (g.cat = 0 ∨ g.cat = 1 ∨ g.cat = 5) → f.cat ≠ g.cat := by
      intro g hg hcat heq
      have hmem : g.cat ∈ fs.map Frag.cat := List.mem_map_of_mem Frag.cat hg
      have hpos : 0 < (fs.map Frag.cat).count g.cat := List.count_pos_iff.mpr hmem
      have hcons : ((f :: fs).map Frag.cat).count g.cat
          = (fs.map Frag.cat).count g.cat + 1 := by
        rw [List.map_cons, List.count_cons, heq]
        simp
      rcases hcat with h | h | h <;> rw [h] at hcons hpos <;> omega
    have hacc2 : ∀ g, g ∈ fs → (Frag.update b f).accepts g = true := by
      intro g hg
      exact step_accepts (hacc g (List.mem_cons_of_mem f hg)) (hhead g hg) (hnodup g hg)
    obtain ⟨b2, hrun, hval⟩ := ih (Frag.update b f) hacc2 htail
      (le_trans (hcount_tail 0) h0) (le_trans (hcount_tail 1) h1)
      (le_trans (hcount_tail 5) h5)
    refine ⟨b2, ?_, ?_⟩
    · simp only [applyAll, happly]
      exact hrun
    · rw [hval, update_value1]
      simp [joinAll, String.append_assoc]

/-- A facade entry call followed by fragment method calls is the same as
running the whole fragment list on a freshly constructed builder. -/
theorem runFromFacade_eq (f : Frag) (rest : List Frag) :
    runFromFacade f rest = applyAll Builder.new (f :: rest) := by
  cases f <;> rfl

/-- A fresh builder accepts every fragment. -/
theorem new_accepts (f : Frag) : Builder.new.accepts f = true := by
  cases f <;> rfl

/-- A method call on one address leaves every other address untouched. -/
theorem callAt_get_ne (h : BHeap) (k i : Nat) (f : Frag) (hne : k ≠ i) :
    (callAt h k f)[i]? = h[i]? := by
  unfold callAt
  cases h[k]? with
  | none => rfl
  | some b => exact List.getElem?_set_ne hne

/-- A chain of method calls on one address leaves every other address untouched. -/
theorem callChainAt_get_ne (gs : List Frag) : ∀ (h : BHeap) (k i : Nat), k ≠ i →
    (callChainAt h k gs)[i]? = h[i]? := by
  induction gs with
  | nil => intro h k i _; rfl
  | cons g gs ih =>
    intro h k i hne
    have : callChainAt h k (g :: gs) = callChainAt (callAt h k g) k gs := by
      simp [callChainAt]
    rw [this, ih (callAt h k g) k i hne, callAt_get_ne h k i g hne]

/-- C1: for every fragment-call chain started by a facade entry call that
respects the weak category order (category ranks nondecreasing along the
chain) and repeats none of element, id, pseudoElement, the chain
succeeds and stringify returns the concatenation, in call order, of the
formatted fragment texts with no other separators. -/
theorem C1_valid_chain_stringify (f : Frag) (rest : List Frag)
    (hsorted : (((f :: rest).map Frag.cat)).Pairwise (· ≤ ·))
    (h0 : ((f :: rest).map Frag.cat).count 0 ≤ 1)
    (h1 : ((f :: rest).map Frag.cat).count 1 ≤ 1)
    (h5 : ((f :: rest).map Frag.cat).count 5 ≤ 1) :
    ∃ b, runFromFacade f rest = CallResult.ok b ∧
      Builder.stringify b = joinAll ((f :: rest).map Frag.fmt) := by
  have hacc : ∀ g, g ∈ (f :: rest) → Builder.new.accepts g = true :=
    fun g _ => new_accepts g
  obtain ⟨b2, hrun, hval⟩ := applyAll_ok (f :: rest) Builder.new hacc hsorted h0 h1 h5
  refine ⟨b2, ?_, ?_⟩
  · rw [runFromFacade_eq]
    exact hrun
  · rw [Builder.stringify, hval]
    simp [Builder.new, Builder.init]

/-- C1 witness: the spec scenario element(a).attr(href).pseudoClass(focus). -/
theorem C1_valid_chain_stringify_witness :
    (∃ b, runFromFacade (Frag.element "a") [Frag.attr "href$=\".png\"", Frag.pseudoClass "focus"]
        = CallResult.ok b ∧
      Builder.stringify b
        = joinAll (([Frag.element "a", Frag.attr "href$=\".png\"", Frag.pseudoClass "focus"]).map Frag.fmt)) ∧
    joinAll (([Frag.element "a", Frag.attr "href$=\".png\"", Frag.pseudoClass "focus"]).map Frag.fmt)
      = "a[href$=\".png\"]:focus" :=
  ⟨C1_valid_chain_stringify (Frag.element "a") [Frag.attr "href$=\".png\"", Frag.pseudoClass "focus"]
    (by decide) (by decide) (by decide) (by decide), by decide⟩

/-- C2 counterexample: a duplicate element call throws, but the message
it carries reads "more then one time", not "more than one time" as the
claim states. -/
theorem C2_message_counterexample :
    cssSelectorBuilder.element "div" = CallResult.ok bDiv ∧
    Builder.element bDiv "p"
      = CallResult.thrown
          "Element, id and pseudo-element should not occur more then one time inside the selector"
          bDiv ∧
    "Element, id and pseudo-element should not occur more then one time inside the selector"
      ≠ "Element, id and pseudo-element should not occur more than one time inside the selector" := by
  decide

/-- C2 (amended): whenever element, id or pseudoElement throws with its
own category already present, the thrown error carries exactly the
message "Element, id and pseudo-element should not occur more then one
time inside the selector". -/
theorem C2_duplicate_message (b b2 : Builder) (v m : String)
    (h : (b.elementExist = true ∧ b.element v = CallResult.thrown m b2)
       ∨ (b.idExist = true ∧ Builder.id b v = CallResult.thrown m b2)
       ∨ (b.pseudoElementExist = true ∧ b.pseudoElement v = CallResult.thrown m b2)) :
    m = "Element, id and pseudo-element should not occur more then one time inside the selector" := by
  rcases h with ⟨hf, he⟩ | ⟨hf, he⟩ | ⟨hf, he⟩ <;>
    simp_all [Builder.element, Builder.id, Builder.pseudoElement, OneTimeInsideError]

/-- C2 witness: the duplicate throw of element on a state that already
has an element carries the exact source message. -/
theorem C2_duplicate_message_witness :
    OneTimeInsideError
      = "Element, id and pseudo-element should not occur more then one time inside the selector" :=
  C2_duplicate_message bDiv bDiv "p" OneTimeInsideError (Or.inl ⟨by decide, by decide⟩)

/-- C3: calling element, id or pseudoElement with that same category
already present throws the duplicate error, and the receiver state at
the throw site is the unchanged original state, so stringify yields the
same string as before the failing call and no flag was set by it. -/
theorem C3_duplicate_leaves_state (b : Builder) (v : String) :
    (b.elementExist = true →
      b.element v = CallResult.thrown OneTimeInsideError b ∧
      (b.element v).post.stringify = b.stringify) ∧
    (b.idExist = true →
      Builder.id b v = CallResult.thrown OneTimeInsideError b ∧
      (Builder.id b v).post.stringify = b.stringify) ∧
    (b.pseudoElementExist = true →
      b.pseudoElement v = CallResult.thrown OneTimeInsideError b ∧
      (b.pseudoElement v).post.stringify = b.stringify) := by
  refine ⟨fun h => ?_, fun h => ?_, fun h => ?_⟩ <;>
    simp_all [Builder.element, Builder.id, Builder.pseudoElement, CallResult.post]

/-- C3 witness: on a state with every flag set, each of the three
methods throws the duplicate error and leaves the state as it was. -/
theorem C3_duplicate_leaves_state_witness :
    (Builder.element bAllFlags "x" = CallResult.thrown OneTimeInsideError bAllFlags ∧
      (Builder.element bAllFlags "x").post.stringify = bAllFlags.stringify) ∧
    (Builder.id bAllFlags "x" = CallResult.thrown OneTimeInsideError bAllFlags ∧
      (Builder.id bAllFlags "x").post.stringify = bAllFlags.stringify) ∧
    (Builder.pseudoElement bAllFlags "x" = CallResult.thrown OneTimeInsideError bAllFlags ∧
      (Builder.pseudoElement bAllFlags "x").post.stringify = bAllFlags.stringify) :=
  ⟨(C3_duplicate_leaves_state bAllFlags "x").1 (by decide),
   (C3_duplicate_leaves_state bAllFlags "x").2.1 (by decide),
   (C3_duplicate_leaves_state bAllFlags "x").2.2 (by decide)⟩

/-- C4: a fragment method invoked while a flag of a strictly later
category is set, with no duplicate of its own category present, throws
the order error with exactly the stated message, and the state at the
throw site is the unchanged receiver. -/
theorem C4_order_violation (b : Builder) (f : Frag) (c : Nat)
    (hc : f.cat < c) (hflag : b.flag c = true)
    (hdup : (f.cat = 0 ∨ f.cat = 1 ∨ f.cat = 5) → b.flag f.cat = false) :
    Frag.apply b f
      = CallResult.thrown
          "Selector parts should be arranged in the following order: element, id, class, attribute, pseudo-class, pseudo-element"
          b := by
  cases f <;> rcases c with _ | _ | _ | _ | _ | _ | c <;>
    simp_all [Frag.apply, Frag.cat, Builder.flag, Builder.element, Builder.id,
      Builder.«class», Builder.attr, Builder.pseudoClass, Builder.pseudoElement,
      FollowingOrderError]

/-- C4 witness: id called on a builder that already has a class fragment
throws the order error. -/
theorem C4_order_violation_witness :
    Frag.apply bCls (Frag.id "main")
      = CallResult.thrown
          "Selector parts should be arranged in the following order: element, id, class, attribute, pseudo-class, pseudo-element"
          bCls :=
  C4_order_violation bCls (Frag.id "main") 2 (by decide) (by decide) (fun _ => by decide)

/-- C6: the duplicate check comes before the order check in element, id
and pseudoElement: on any state with the own category present, also one
with later categories present, the call throws the duplicate message and
never the order message. -/
theorem C6_duplicate_before_order (b : Builder) (v : String) :
    (b.elementExist = true →
      b.element v = CallResult.thrown OneTimeInsideError b ∧
      b.element v ≠ CallResult.thrown FollowingOrderError b) ∧
    (b.idExist = true →
      Builder.id b v = CallResult.thrown OneTimeInsideError b ∧
      Builder.id b v ≠ CallResult.thrown FollowingOrderError b) ∧
    (b.pseudoElementExist = true →
      b.pseudoElement v = CallResult.thrown OneTimeInsideError b ∧
      b.pseudoElement v ≠ CallResult.thrown FollowingOrderError b) := by
  have hne : OneTimeInsideError ≠ FollowingOrderError := by decide
  refine ⟨fun h => ?_, fun h => ?_, fun h => ?_⟩ <;>
    simp_all [Builder.element, Builder.id, Builder.pseudoElement]

/-- C6 witness: on a state with every flag set, each of the three
methods, each facing later-category flags, throws the duplicate error. -/
theorem C6_duplicate_before_order_witness :
    (Builder.element bAllFlags "y" = CallResult.thrown OneTimeInsideError bAllFlags ∧
      Builder.element bAllFlags "y" ≠ CallResult.thrown FollowingOrderError bAllFlags) ∧
    (Builder.id bAllFlags "y" = CallResult.thrown OneTimeInsideError bAllFlags ∧
      Builder.id bAllFlags "y" ≠ CallResult.thrown FollowingOrderError bAllFlags) ∧
    (Builder.pseudoElement bAllFlags "y" = CallResult.thrown OneTimeInsideError bAllFlags ∧
      Builder.pseudoElement bAllFlags "y" ≠ CallResult.thrown FollowingOrderError bAllFlags) :=
  ⟨(C6_duplicate_before_order bAllFlags "y").1 (by decide),
   (C6_duplicate_before_order bAllFlags "y").2.1 (by decide),
   (C6_duplicate_before_order bAllFlags "y").2.2 (by decide)⟩

/-- C5: for any two selectors (any values exposing stringify) and any
combinator string, the facade combine stringifies to left, space,
combinator, space, right; applying it to a nested combine result nests
the string correspondingly. -/
theorem C5_combine_stringify {α β γ : Type} [HasStringify α] [HasStringify β] [HasStringify γ]
    (a : α) (c : String) (b : β) (c2 : String) (d : γ) :
    Builder.stringify (cssSelectorBuilder.combine a c b)
      = HasStringify.stringify a ++ " " ++ c ++ " " ++ HasStringify.stringify b ∧
    Builder.stringify (cssSelectorBuilder.combine a c (cssSelectorBuilder.combine b c2 d))
      = HasStringify.stringify a ++ " " ++ c ++ " "
        ++ (HasStringify.stringify b ++ " " ++ c2 ++ " " ++ HasStringify.stringify d) := by
  constructor <;>
    simp [cssSelectorBuilder.combine, Builder.combine, Builder.stringify, Builder.new,
      Builder.init, instHasStringifyBuilder, String.append_assoc]

/-- C7: stringify is a pure idempotent read: it returns the accumulated
value1, the receiver after the call is the receiver before it, and a
second call returns the identical string. -/
theorem C7_stringify_pure_idempotent (b : Builder) :
    b.stringifyRun = (b.stringify, b) ∧
    (b.stringifyRun.2.stringifyRun).1 = b.stringifyRun.1 ∧
    (b.stringifyRun.2.stringifyRun).2 = b :=
  ⟨rfl, rfl, rfl⟩

/-- Every facade entry call returns the next unused address, appending
exactly one fresh object to the heap. -/
theorem facadeCallAlloc_fresh {h h2 : BHeap} {e : FacadeCall} {i : Nat}
    (he : facadeCallAlloc h e = some (i, h2)) :
    i = h.length ∧ ∃ b, h2 = h ++ [b] := by
  cases e with
  | frag f =>
    cases hap : Frag.apply Builder.new f with
    | ok b =>
      rw [facadeCallAlloc, hap] at he
      have hb : i = h.length ∧ h2 = h ++ [b] := by
        simpa [allocB, eq_comm] using he
      exact ⟨hb.1, b, hb.2⟩
    | thrown m b =>
      rw [facadeCallAlloc, hap] at he
      exact absurd he (by simp)
  | combine a1 combinator a2 =>
    cases hg1 : h[a1]? with
    | none =>
      rw [facadeCallAlloc, hg1] at he
      exact absurd he (by simp)
    | some s1 =>
      cases hg2 : h[a2]? with
      | none =>
        rw [facadeCallAlloc, hg1, hg2] at he
        exact absurd he (by simp)
      | some s2 =>
        rw [facadeCallAlloc, hg1, hg2] at he
        have hb : i = h.length ∧ h2 = h ++ [Builder.new.combine s1 combinator s2] := by
          simpa [allocB, eq_comm] using he
        exact ⟨hb.1, Builder.new.combine s1 combinator s2, hb.2⟩

/-- C8: each of the seven facade entry points, combine included,
allocates a fresh independent builder: a second entry call returns an
address different from the first, keeps the first object intact, and any
chain of fragment method calls on either address leaves the object at
the other address, hence its text, flags and stringify result,
untouched. -/
theorem C8_facade_independent (h0 h1 h2 : BHeap) (e1 e2 : FacadeCall) (i j : Nat)
    (he1 : facadeCallAlloc h0 e1 = some (i, h1))
    (he2 : facadeCallAlloc h1 e2 = some (j, h2)) :
    i ≠ j ∧ h2[i]? = h1[i]? ∧
    (∀ gs : List Frag, (callChainAt h2 j gs)[i]? = h2[i]?) ∧
    (∀ gs : List Frag, (callChainAt h2 i gs)[j]? = h2[j]?) := by
  obtain ⟨hi, b1, hh1⟩ := facadeCallAlloc_fresh he1
  obtain ⟨hj, b2, hh2⟩ := facadeCallAlloc_fresh he2
  have hlen : i < h1.length := by
    rw [hi, hh1]
    simp
  have hij : i ≠ j := by
    rw [hi, hj, hh1]
    simp
  refine ⟨hij, ?_, ?_, ?_⟩
  · rw [hh2]
    exact List.getElem?_append_left hlen
  · intro gs
    exact callChainAt_get_ne gs h2 j i (Ne.symm hij)
  · intro gs
    exact callChainAt_get_ne gs h2 i j hij

/-- C8 witness: on a heap holding the div and id(main) builders, a
facade combine of the two allocates at the fresh address 2, a facade
element entry then allocates at the distinct address 3, the combine
result survives the second allocation, and chains on one address never
disturb the other. -/
theorem C8_facade_independent_witness :
    (2 : Nat) ≠ 3 ∧
    ([bDiv, bMain, bPlus, bDiv] : BHeap)[(2 : Nat)]?
      = ([bDiv, bMain, bPlus] : BHeap)[(2 : Nat)]? ∧
    (∀ gs : List Frag, (callChainAt [bDiv, bMain, bPlus, bDiv] 3 gs)[(2 : Nat)]?
      = ([bDiv, bMain, bPlus, bDiv] : BHeap)[(2 : Nat)]?) ∧
    (∀ gs : List Frag, (callChainAt [bDiv, bMain, bPlus, bDiv] 2 gs)[(3 : Nat)]?
      = ([bDiv, bMain, bPlus, bDiv] : BHeap)[(3 : Nat)]?) :=
  C8_facade_independent [bDiv, bMain] [bDiv, bMain, bPlus] [bDiv, bMain, bPlus, bDiv]
    (FacadeCall.combine 0 "+" 1) (FacadeCall.frag (Frag.element "div")) 2 3
    (by decide) (by decide)

/-- C9: Rectangle(w, h) carries width w, height h and getArea returning
w times h; getArea is closed over the constructor arguments, so after
reassigning the width and height properties it still returns w times h. -/
theorem C9_rectangle_closure (α : Type) [Mul α] (w h w2 h2 : α) :
    (Rectangle w h).width = w ∧
    (Rectangle w h).height = h ∧
    (Rectangle w h).getArea () = w * h ∧
    (((Rectangle w h).setWidth w2).setHeight h2).getArea () = w * h :=
  ⟨rfl, rfl, rfl, rfl⟩

/-- C10: round trip through the JSON helpers.  For a serializable object
(one on which the platform decoder inverts the platform serializer),
fromJSON(proto, getJSON(obj)) returns exactly the object JSON.parse
allocated (one fresh address, no copy), its own enumerable properties
equal those of obj, its prototype is exactly proto, and every
preexisting object is untouched. -/
theorem C10_json_roundtrip {V P : Type}
    (stringifyJSON : List (String × V) → String) (parseProps : String → List (String × V))
    (objectProto proto : P) (h : JHeap V P) (obj : JSObject V P)
    (hround : parseProps (stringifyJSON obj.props) = obj.props) :
    (fromJSON parseProps objectProto h proto (getJSON stringifyJSON obj)).1 = h.length ∧
    (fromJSON parseProps objectProto h proto (getJSON stringifyJSON obj)).2.length
      = h.length + 1 ∧
    (fromJSON parseProps objectProto h proto (getJSON stringifyJSON obj)).2[h.length]?
      = some { props := obj.props, proto := proto } ∧
    (∀ k, k < h.length →
      (fromJSON parseProps objectProto h proto (getJSON stringifyJSON obj)).2[k]? = h[k]?) := by
  have hget : (h ++ [({ props := obj.props, proto := objectProto } : JSObject V P)])[h.length]?
      = some { props := obj.props, proto := objectProto } :=
    List.getElem?_concat_length h _
  refine ⟨rfl, ?_, ?_, ?_⟩
  · simp [fromJSON, parseJSON, allocJS, getJSON, Object.setPrototypeOf, hround, hget]
  · simp only [fromJSON, parseJSON, allocJS, getJSON, Object.setPrototypeOf, hround, hget]
    exact List.getElem?_set_self (by simp)
  · intro k hk
    simp only [fromJSON, parseJSON, allocJS, getJSON, Object.setPrototypeOf, hround, hget]
    rw [List.getElem?_set_ne (by omega)]
    exact List.getElem?_append_left hk

/-- C10 witness: a concrete one-property object round trips and gets the
requested prototype in place. -/
theorem C10_json_roundtrip_witness :
    (fromJSON (fun _ => [("radius", true)]) (0 : Nat)
        ([] : JHeap Bool Nat) 7 (getJSON (fun _ => "") ⟨[("radius", true)], 0⟩)).1 = 0 ∧
    (fromJSON (fun _ => [("radius", true)]) (0 : Nat)
        ([] : JHeap Bool Nat) 7 (getJSON (fun _ => "") ⟨[("radius", true)], 0⟩)).2.length = 1 ∧
    (fromJSON (fun _ => [("radius", true)]) (0 : Nat)
        ([] : JHeap Bool Nat) 7 (getJSON (fun _ => "") ⟨[("radius", true)], 0⟩)).2[(0 : Nat)]?
      = some ⟨[("radius", true)], 7⟩ ∧
    (∀ k, k < 0 →
      (fromJSON (fun _ => [("radius", true)]) (0 : Nat)
        ([] : JHeap Bool Nat) 7 (getJSON (fun _ => "") ⟨[("radius", true)], 0⟩)).2[k]?
        = ([] : JHeap Bool Nat)[k]?) :=
  C10_json_roundtrip (fun _ => "") (fun _ => [("radius", true)]) 0 7 [] ⟨[("radius", true)], 0⟩ rfl
